import Mathlib

/-!
Shallow embedding of the InventoryManagementApp core (src/db.py, src/redis_db.py,
src/models.py) in Lean 4.

The MongoDB collections (models.py) are modelled as lists of records inside a
`MongoState`; `mongoengine` query combinators are modelled as follows:
  * `Collection.objects(field=v).first()`  →  `List.find?` with the same predicate
    (MongoDB returns documents in insertion order for unindexed scans, and all
    inserts in this code base append, so list order models result order);
  * `doc.update(dec__quantity=q)` / `doc.update(inc__quantity=q)` /
    `doc.modify(inc__quantity=d)`  →  an atomic in-place quantity adjustment of the
    documents whose primary key equals the fetched document's primary key
    (`inventory_id` is the declared primary key of `Inventory`);
  * `doc.modify(set__quantity=q)` / `doc.delete()` on an `OrderDetails` document
    (whose primary key is an implicit ObjectId)  →  an update/removal of the first
    list entry matching the query that produced `doc`;
  * `doc.save()` on a document with an explicit string primary key  →  upsert by
    that key (mongoengine `save` overwrites a document with the same primary key).

Quantities are mongoengine `IntField`s, i.e. unbounded Python integers: `Int`.
Python's `int(quantity)` conversion (which raises `ValueError` on non-numeric
input) is modelled by the `QtyInput` type: `.int n` is an input whose conversion
yields `n`, `.nonInt` one whose conversion raises.

`order_detail.save()` in `create_order_detail`, and the two `modify` calls in
`update_order_detail` / the `delete` call in `delete_order_detail`, sit inside
`try/except` blocks in the source: a storage-layer failure of those specific
writes is modelled by explicit boolean failure-injection parameters
(`saveFails`, `invWriteFails`, `lineWriteFails`, `deleteFails`).  The remaining
store writes have no failure handling worth distinguishing and are modelled as
succeeding.  `datetime.now()` is modelled by an explicit clock argument `now`.

The Redis store (redis_db.py) keeps suppliers under keys `supplier:{id}` and
products under keys `product:{id}`; the two disjoint key namespaces are modelled
as two association lists keyed by the bare id.
-/

/-- `models.py` `Retailer`: primary key `retailer_id`. -/
structure Retailer where
  retailer_id : String
  name : String
  location : String
  contact_info : String
deriving Repr, DecidableEq

/-- `models.py` `Order`: primary key `order_id`; `retailer` is a `ReferenceField`
storing the retailer's primary key; `order_date` is a timestamp. -/
structure Order where
  order_id : String
  retailer_id : String
  order_date : Nat
deriving Repr, DecidableEq

/-- `models.py` `Inventory`: primary key `inventory_id`; `quantity` is an
`IntField` with no bounds. -/
structure Inventory where
  inventory_id : String
  product_id : String
  quantity : Int
  location : String
deriving Repr, DecidableEq

/-- `models.py` `OrderDetails`: `order` is a `ReferenceField Order` storing the
order's primary key; the document's own primary key is an implicit ObjectId
(modelled by list position). -/
structure OrderDetail where
  order_id : String
  product_id : String
  quantity : Int
deriving Repr, DecidableEq

/-- The four MongoDB collections used by `db.py`. -/
structure MongoState where
  retailers : List Retailer
  orders : List Order
  inventories : List Inventory
  order_details : List OrderDetail
deriving Repr, DecidableEq

/-- Result of a `db.py` operation: the post-state and the Python
`(bool, message)` pair every function returns. -/
structure OpResult where
  st : MongoState
  ok : Bool
  msg : String
deriving Repr, DecidableEq

/-- A value passed as a quantity argument: `.int n` converts to `n` under
Python's `int(...)`, `.nonInt` raises `ValueError`. -/
inductive QtyInput where
  | int (n : Int)
  | nonInt
deriving Repr, DecidableEq

/-- Python `int(quantity)` with its `ValueError` modelled as `none`. -/
def QtyInput.toInt : QtyInput → Option Int
  | .int n => some n
  | .nonInt => none

/-- Atomic quantity adjustment of the inventory documents whose primary key is
`iid` (models `update(inc__quantity=d)` / `modify(inc__quantity=d)`;
`update(dec__quantity=q)` is `adjInv iid (-q)`). -/
def adjInv (iid : String) (d : Int) (x : Inventory) : Inventory :=
  if x.inventory_id == iid then { x with quantity := x.quantity + d } else x

/-- Apply an inventory-document adjustment across the collection. -/
def mapInv (st : MongoState) (f : Inventory → Inventory) : MongoState :=
  { st with inventories := st.inventories.map f }

/-- Predicate for `Inventory.objects(product_id=pid)`. -/
def byPid (pid : String) (x : Inventory) : Bool := x.product_id == pid

/-- Predicate for `Inventory.objects(inventory_id=iid)`. -/
def byIid (iid : String) (x : Inventory) : Bool := x.inventory_id == iid

/-- Predicate for `OrderDetails.objects(order=oid, product_id=pid)`. -/
def lineMatches (oid pid : String) (od : OrderDetail) : Bool :=
  od.order_id == oid && od.product_id == pid

/-- Predicate for `Order.objects(order_id=oid)`. -/
def byOid (oid : String) (o : Order) : Bool := o.order_id == oid

/-- Predicate for `Retailer.objects(retailer_id=rid)`. -/
def byRid (rid : String) (r : Retailer) : Bool := r.retailer_id == rid

/-- `doc.modify(set__quantity=q)` on the first `OrderDetails` document matching
the query (the fetched document's ObjectId identifies exactly that entry). -/
def setFirstLineQty (oid pid : String) (q : Int) : List OrderDetail → List OrderDetail
  | [] => []
  | od :: rest =>
    if lineMatches oid pid od then { od with quantity := q } :: rest
    else od :: setFirstLineQty oid pid q rest

/-- `doc.delete()` on the first `OrderDetails` document matching the query. -/
def removeFirstLine (oid pid : String) : List OrderDetail → List OrderDetail
  | [] => []
  | od :: rest =>
    if lineMatches oid pid od then rest
    else od :: removeFirstLine oid pid rest

/-- mongoengine `save()` for a document whose primary key is `order_id`:
overwrite the document with the same key if present, otherwise append. -/
def saveOrder (orders : List Order) (o : Order) : List Order :=
  if orders.any (byOid o.order_id) then
    orders.map (fun x => if byOid o.order_id x then o else x)
  else orders ++ [o]

/-- mongoengine `save()` for an `Inventory` document keyed by `inventory_id`. -/
def saveInventory (invs : List Inventory) (i : Inventory) : List Inventory :=
  if invs.any (byIid i.inventory_id) then
    invs.map (fun x => if byIid i.inventory_id x then i else x)
  else invs ++ [i]

/-! ## Redis store (redis_db.py) -/

/-- The hash stored under `supplier:{id}`. -/
structure SupplierHash where
  name : String
  location : String
  contact_info : String
deriving Repr, DecidableEq

/-- The hash stored under `product:{id}` (`price` is stored as a string field in
the Redis hash). -/
structure ProductHash where
  name : String
  description : String
  price : String
  supplier_id : String
deriving Repr, DecidableEq

/-- The Redis key space: suppliers under `supplier:{id}`, products under
`product:{id}` — two disjoint namespaces, keyed here by the bare id. -/
structure RedisState where
  suppliers : List (String × SupplierHash)
  products : List (String × ProductHash)
deriving Repr, DecidableEq

/-- Result of a `redis_db.py` operation. -/
structure RedisResult where
  st : RedisState
  ok : Bool
  msg : String
deriving Repr, DecidableEq

/-- `r.exists(f"product:{product_id}")` (redis_db.py `check_product_exists_in_redis`). -/
def check_product_exists_in_redis (r : RedisState) (product_id : String) : Bool :=
  (r.products.find? (fun kv => kv.1 == product_id)).isSome

/-- redis_db.py `create_supplier`. -/
def create_supplier (r : RedisState) (supplier_id name location contact_info : String) :
    RedisResult :=
  if (r.suppliers.find? (fun kv => kv.1 == supplier_id)).isSome then
    ⟨r, false, "Supplier already exists."⟩
  else
    ⟨{ r with suppliers := r.suppliers ++ [(supplier_id, ⟨name, location, contact_info⟩)] },
      true, "Supplier added to Redis."⟩

/-- redis_db.py `create_product`. -/
def create_product (r : RedisState) (product_id name description price supplier_id : String) :
    RedisResult :=
  if ¬ (r.suppliers.find? (fun kv => kv.1 == supplier_id)).isSome then
    ⟨r, false, "Supplier does not exist. Add the supplier first."⟩
  else if (r.products.find? (fun kv => kv.1 == product_id)).isSome then
    ⟨r, false, "Product already exists."⟩
  else
    ⟨{ r with products := r.products ++ [(product_id, ⟨name, description, price, supplier_id⟩)] },
      true, "Product added to Redis."⟩

/-! ## db.py operations -/

/-- db.py `create_inventory`: existence check against Redis, then insert.  No
validation of `quantity` is performed. -/
def create_inventory (r : RedisState) (st : MongoState)
    (inventory_id product_id : String) (quantity : Int) (warehouse_location : String) :
    OpResult :=
  if check_product_exists_in_redis r product_id then
    ⟨{ st with inventories :=
        st.inventories ++ [⟨inventory_id, product_id, quantity, warehouse_location⟩] },
      true, "Inventory item created."⟩
  else
    ⟨st, false, "Unable to locate the product in the database. Please add the product entry first by using the Create Product option."⟩

/-- db.py `create_order`: fails if the retailer does not exist, otherwise stores
the order with the retailer reference and `datetime.now()` (the `now` clock). -/
def create_order (st : MongoState) (order_id retailer_id : String) (now : Nat) : OpResult :=
  match st.retailers.find? (byRid retailer_id) with
  | none => ⟨st, false, "Retailer does not exist."⟩
  | some _retailer =>
    ⟨{ st with orders := saveOrder st.orders ⟨order_id, retailer_id, now⟩ },
      true, "Order created successfully."⟩

/-- db.py `create_order_detail`: `int()` conversion, order-existence check,
inventory-sufficiency check, atomic debit, then the `OrderDetails` save; a save
failure (`saveFails`) triggers the compensating credit in the `except` block. -/
def create_order_detail (st : MongoState) (order_id product_id : String)
    (quantity : QtyInput) (saveFails : Bool) : OpResult :=
  match quantity.toInt with
  | none => ⟨st, false, "Quantity must be an integer."⟩
  | some q =>
    match st.orders.find? (byOid order_id) with
    | none => ⟨st, false, "Order does not exist."⟩
    | some _order =>
      match st.inventories.find? (byPid product_id) with
      | none => ⟨st, false, "Not enough inventory or product does not exist."⟩
      | some inventory_item =>
        if inventory_item.quantity < q then
          ⟨st, false, "Not enough inventory or product does not exist."⟩
        else
          -- inventory_item.update(dec__quantity=quantity)
          let st1 := mapInv st (adjInv inventory_item.inventory_id (-q))
          if saveFails then
            -- except: roll back the inventory deduction (inc__quantity=quantity)
            ⟨mapInv st1 (adjInv inventory_item.inventory_id q), false,
              "Failed to create order detail."⟩
          else
            ⟨{ st1 with order_details :=
                st1.order_details ++ [⟨order_id, product_id, q⟩] },
              true, "Order detail added successfully."⟩

/-- db.py `update_inventory_quantity`: unconditional administrative overwrite of
the quantity of an existing record (no validation of `new_quantity`). -/
def update_inventory_quantity (st : MongoState) (inventory_id : String)
    (new_quantity : Int) : OpResult :=
  match st.inventories.find? (byIid inventory_id) with
  | none => ⟨st, false, "Inventory item not found."⟩
  | some inventory =>
    ⟨{ st with inventories :=
        saveInventory st.inventories { inventory with quantity := new_quantity } },
      true, "Inventory item updated successfully."⟩

/-- db.py `update_order`: optionally reassign the retailer reference.  Python's
`if new_retailer_id:` treats `None` and `""` as absent. -/
def update_order (st : MongoState) (order_id : String)
    (new_retailer_id : Option String) : OpResult :=
  match st.orders.find? (byOid order_id) with
  | none => ⟨st, false, "Order not found."⟩
  | some order =>
    match new_retailer_id with
    | some rid =>
      if rid == "" then
        ⟨{ st with orders := saveOrder st.orders order }, true, "Order updated."⟩
      else
        match st.retailers.find? (byRid rid) with
        | none => ⟨st, false, "New retailer not found. Order's retailer not updated."⟩
        | some new_retailer =>
          ⟨{ st with orders :=
              saveOrder st.orders { order with retailer_id := new_retailer.retailer_id } },
            true, "Order updated."⟩
    | none =>
      ⟨{ st with orders := saveOrder st.orders order }, true, "Order updated."⟩

/-- db.py `update_order_detail`: `int()` conversion, line and inventory lookups,
delta computation with the insufficiency check, then the inventory `modify`
followed by the line `modify`, each inside the `try`: `invWriteFails` fails the
first write (no mutation committed), `lineWriteFails` fails the second after the
inventory delta was already applied. -/
def update_order_detail (st : MongoState) (order_id product_id : String)
    (new_quantity : QtyInput) (invWriteFails lineWriteFails : Bool) : OpResult :=
  match new_quantity.toInt with
  | none => ⟨st, false, "Quantity must be an integer."⟩
  | some newQ =>
    match st.order_details.find? (lineMatches order_id product_id) with
    | none => ⟨st, false, "Order detail not found."⟩
    | some order_detail =>
      match st.inventories.find? (byPid product_id) with
      | none => ⟨st, false, "Inventory item not found."⟩
      | some inventory_item =>
        let quantity_difference := newQ - order_detail.quantity
        if quantity_difference > 0 ∧ quantity_difference > inventory_item.quantity then
          ⟨st, false, "Insufficient inventory to fulfill the updated quantity."⟩
        else if invWriteFails then
          ⟨st, false, "Failed to update order detail."⟩
        else
          -- inventory_item.modify(inc__quantity=-quantity_difference)
          let st1 := mapInv st (adjInv inventory_item.inventory_id (-quantity_difference))
          if lineWriteFails then
            ⟨st1, false, "Failed to update order detail."⟩
          else
            ⟨{ st1 with order_details :=
                setFirstLineQty order_id product_id newQ st1.order_details },
              true, "Order detail and inventory updated successfully."⟩

/-- db.py `delete_order_detail`: credit the line's quantity back to inventory,
then delete the line; `deleteFails` fails the line deletion after the credit. -/
def delete_order_detail (st : MongoState) (order_id product_id : String)
    (deleteFails : Bool) : OpResult :=
  match st.order_details.find? (lineMatches order_id product_id) with
  | none => ⟨st, false, "Order detail not found."⟩
  | some order_detail =>
    match st.inventories.find? (byPid product_id) with
    | none => ⟨st, false, "Inventory item not found for this product."⟩
    | some inventory_item =>
      -- inventory_item.update(inc__quantity=order_detail.quantity)
      let st1 := mapInv st (adjInv inventory_item.inventory_id order_detail.quantity)
      if deleteFails then
        ⟨st1, false, "Failed to delete order detail."⟩
      else
        ⟨{ st1 with order_details :=
            removeFirstLine order_id product_id st1.order_details },
          true, "Order detail deleted successfully and inventory updated."⟩

/-- db.py `retrieve_order_detail`: pure read. -/
def retrieve_order_detail (st : MongoState) (order_id product_id : String) :
    Option (String × String × Int) :=
  match st.order_details.find? (lineMatches order_id product_id) with
  | none => none
  | some od => some (od.order_id, od.product_id, od.quantity)

/-! ## Concurrency micro-step model of the inventory debit

`create_order_detail` implements its debit as two separate storage interactions
(db.py lines 124–130): first `Inventory.objects(product_id=...).first()`
followed by an application-code comparison `inventory_item.quantity < quantity`,
then a separate unconditional atomic `update(dec__quantity=quantity)`.  To
reason about concurrent calls on the same product, each in-flight debit is a
thread with a program counter: pc 0 = about to run the read-and-check, pc 1 =
check passed, about to issue the decrement, pc 2 = decrement committed,
pc 3 = failed the check.  The shared state is the product's quantity; a
schedule interleaves the atomic micro-steps of two threads. -/

/-- One in-flight debit attempt of `amount`, at micro-step `pc`. -/
structure DebitThread where
  amount : Int
  pc : Nat
deriving Repr, DecidableEq

/-- One atomic micro-step of a debit thread against the shared quantity:
pc 0 is the application-level read-and-check, pc 1 the separate atomic
`dec__quantity`. -/
def stepDebit (qty : Int) (t : DebitThread) : Int × DebitThread :=
  match t.pc with
  | 0 => if qty < t.amount then (qty, { t with pc := 3 }) else (qty, { t with pc := 1 })
  | 1 => (qty - t.amount, { t with pc := 2 })
  | _ => (qty, t)

/-- Shared quantity plus two concurrent debit threads. -/
structure RaceState where
  qty : Int
  a : DebitThread
  b : DebitThread
deriving Repr, DecidableEq

/-- Run one micro-step of thread `a` (choice `true`) or `b` (choice `false`). -/
def stepRace (s : RaceState) (choice : Bool) : RaceState :=
  if choice then
    let p := stepDebit s.qty s.a
    { s with qty := p.1, a := p.2 }
  else
    let p := stepDebit s.qty s.b
    { s with qty := p.1, b := p.2 }

/-- Run a schedule of interleaved micro-steps. -/
def runRace (s : RaceState) : List Bool → RaceState
  | [] => s
  | c :: cs => runRace (stepRace s c) cs

/-- Initial state: quantity `q`, two fresh debit attempts of `qa` and `qb`. -/
def initRace (q qa qb : Int) : RaceState := ⟨q, ⟨qa, 0⟩, ⟨qb, 0⟩⟩

/-- Serial schedule: thread a runs to completion, then thread b. -/
def serialSched : List Bool := [true, true, false, false]

/-- Interleaved schedule: both checks run before either decrement. -/
def interleavedSched : List Bool := [true, false, true, false]

/-! ## Concrete sample states used by witnesses and counterexamples -/

/-- An inventory record for product `P1` holding quantity 10. -/
def inv0 : Inventory := ⟨"I1", "P1", 10, "W"⟩

/-- A state with one retailer `R1`, one order `O1`, inventory `inv0`, no lines. -/
def st0 : MongoState := ⟨[⟨"R1", "Acme", "NY", "555"⟩], [⟨"O1", "R1", 0⟩], [inv0], []⟩

/-- `st0` with a pre-existing order line for `(O1, P1)` of quantity 3. -/
def stDup : MongoState := { st0 with order_details := [⟨"O1", "P1", 3⟩] }

/-- A state mid-flight: order `O1` with a line of 4 for `P1`, inventory 6. -/
def stLine : MongoState :=
  ⟨[⟨"R1", "Acme", "NY", "555"⟩], [⟨"O1", "R1", 0⟩], [⟨"I1", "P1", 6, "W"⟩],
    [⟨"O1", "P1", 4⟩]⟩

/-- A Redis state holding supplier `S1` and product `P1`. -/
def redis0 : RedisState :=
  ⟨[("S1", ⟨"Sup", "LA", "555"⟩)], [("P1", ⟨"Widget", "d", "5", "S1"⟩)]⟩

/-! ## Helper lemmas -/

theorem adjInv_product_id (iid : String) (d : Int) (x : Inventory) :
    (adjInv iid d x).product_id = x.product_id := by
  unfold adjInv; split <;> rfl

theorem adjInv_inventory_id (iid : String) (d : Int) (x : Inventory) :
    (adjInv iid d x).inventory_id = x.inventory_id := by
  unfold adjInv; split <;> rfl

theorem adjInv_adjInv (iid : String) (d₁ d₂ : Int) (x : Inventory) :
    adjInv iid d₂ (adjInv iid d₁ x) = adjInv iid (d₁ + d₂) x := by
  unfold adjInv
  by_cases h : x.inventory_id == iid <;> simp [h, Int.add_assoc]

theorem adjInv_zero (iid : String) (x : Inventory) : adjInv iid 0 x = x := by
  unfold adjInv; split <;> simp

theorem map_adjInv_cancel (iid : String) (q : Int) (l : List Inventory) :
    (l.map (adjInv iid (-q))).map (adjInv iid q) = l := by
  rw [List.map_map]
  have h : (adjInv iid q ∘ adjInv iid (-q)) = fun x => x := by
    funext x
    simp [Function.comp, adjInv_adjInv, adjInv_zero]
  rw [h, List.map_id']

theorem find?_byPid_map_adjInv (pid iid : String) (d : Int) (l : List Inventory) :
    (l.map (adjInv iid d)).find? (byPid pid) =
      (l.find? (byPid pid)).map (adjInv iid d) := by
  rw [List.find?_map]
  have h : (byPid pid ∘ adjInv iid d) = byPid pid := by
    funext x
    simp [Function.comp, byPid, adjInv_product_id]
  rw [h]

theorem find?_byPid_adjInv_self (pid : String) (d : Int) (l : List Inventory)
    (inv : Inventory) (h : l.find? (byPid pid) = some inv) :
    (l.map (adjInv inv.inventory_id d)).find? (byPid pid) =
      some { inv with quantity := inv.quantity + d } := by
  rw [find?_byPid_map_adjInv, h]
  simp [adjInv]

theorem setFirstLineQty_find? (oid pid : String) (q : Int) (l : List OrderDetail)
    (od : OrderDetail) (h : l.find? (lineMatches oid pid) = some od) :
    (setFirstLineQty oid pid q l).find? (lineMatches oid pid) =
      some { od with quantity := q } := by
  induction l with
  | nil => simp [List.find?] at h
  | cons hd tl ih =>
    by_cases hm : lineMatches oid pid hd
    · rw [List.find?_cons_of_pos _ hm] at h
      cases h
      have hm' : lineMatches oid pid { od with quantity := q } := by
        simpa [lineMatches] using hm
      simp [setFirstLineQty, hm, List.find?_cons_of_pos _ hm']
    · rw [List.find?_cons_of_neg _ hm] at h
      simp [setFirstLineQty, hm, List.find?_cons_of_neg _ hm, ih h]

theorem removeFirstLine_append_of_none (oid pid : String) (l : List OrderDetail)
    (x : OrderDetail) (h : l.find? (lineMatches oid pid) = none)
    (hx : lineMatches oid pid x) :
    removeFirstLine oid pid (l ++ [x]) = l := by
  induction l with
  | nil => simp [removeFirstLine, hx]
  | cons hd tl ih =>
    rw [List.find?_cons] at h
    split at h
    · exact absurd h (by simp)
    · next hm =>
      simp only [List.cons_append, removeFirstLine, hm, Bool.false_eq_true, if_false]
      show hd :: removeFirstLine oid pid (tl ++ [x]) = hd :: tl
      rw [ih h]

theorem find?_append_of_none {α : Type} (p : α → Bool) (l : List α) (x : α)
    (h : l.find? p = none) (hx : p x) : (l ++ [x]).find? p = some x := by
  induction l with
  | nil => simp [List.find?, hx]
  | cons hd tl ih =>
    rw [List.find?_cons] at h
    split at h
    · exact absurd h (by simp)
    · next hm =>
      rw [List.cons_append, List.find?_cons, hm]
      exact ih h

/-- Any failed `create_order_detail` call returns the state it was given:
the validation and existence failures return before writing, and the
save-failure path credits back exactly what it debited. -/
theorem create_order_detail_failed_state_eq (st : MongoState) (oid pid : String)
    (qin : QtyInput) (sf : Bool) :
    (create_order_detail st oid pid qin sf).ok = false →
      (create_order_detail st oid pid qin sf).st = st := by
  unfold create_order_detail
  split
  · intro _; rfl
  · split
    · intro _; rfl
    · split
      · intro _; rfl
      · split
        · intro _; rfl
        · split
          · intro _
            simp only [mapInv]
            rw [map_adjInv_cancel]
          · intro h
            exact absurd h (by simp)

theorem create_order_detail_saveFails_not_ok (st : MongoState) (oid pid : String)
    (qin : QtyInput) : (create_order_detail st oid pid qin true).ok = false := by
  unfold create_order_detail
  split
  · rfl
  · split
    · rfl
    · split
      · rfl
      · split
        · rfl
        · rfl

/-! ## Claims -/

/-- C1: for every order-line create that passes validation and the existence and
sufficiency checks, if persisting the new OrderDetail fails after the inventory
debit succeeded (`saveFails = true`), the operation credits the inventory back
by exactly the debited quantity before returning failure; more generally every
failed create returns with the state exactly as it was before the call
(all-or-nothing from the caller's perspective). -/
theorem C1_create_failure_all_or_nothing (st : MongoState) (oid pid : String)
    (qin : QtyInput) (sf : Bool)
    (hfail : (create_order_detail st oid pid qin sf).ok = false) :
    (create_order_detail st oid pid qin sf).st = st ∧
    (create_order_detail st oid pid qin true).ok = false ∧
    (create_order_detail st oid pid qin true).st = st :=
  ⟨create_order_detail_failed_state_eq st oid pid qin sf hfail,
   create_order_detail_saveFails_not_ok st oid pid qin,
   create_order_detail_failed_state_eq st oid pid qin true
     (create_order_detail_saveFails_not_ok st oid pid qin)⟩

/-- Witness for C1 at a concrete input: with order `O1`, product `P1` (quantity
10 in stock) and a requested quantity of 4, a create whose OrderDetail save
fails returns failure and leaves the state untouched. -/
theorem C1_witness :
    (create_order_detail st0 "O1" "P1" (.int 4) true).st = st0 ∧
    (create_order_detail st0 "O1" "P1" (.int 4) true).ok = false ∧
    (create_order_detail st0 "O1" "P1" (.int 4) true).st = st0 :=
  C1_create_failure_all_or_nothing st0 "O1" "P1" (.int 4) true (by decide)

/-- C2: every order-line create with a valid (positive integer) quantity `q`, an
existing order, and an inventory record for the product holding at least `q`,
succeeds; afterwards the inventory record for that product holds exactly its
previous quantity minus `q`, and an order line of quantity `q` for the pair
exists. -/
theorem C2_create_success (st : MongoState) (oid pid : String) (q : Int)
    (inv : Inventory)
    (_hq : 0 < q)
    (ho : (st.orders.find? (byOid oid)).isSome)
    (hi : st.inventories.find? (byPid pid) = some inv)
    (hge : q ≤ inv.quantity) :
    (create_order_detail st oid pid (.int q) false).ok = true ∧
    (create_order_detail st oid pid (.int q) false).st.inventories.find? (byPid pid) =
      some { inv with quantity := inv.quantity - q } ∧
    (⟨oid, pid, q⟩ : OrderDetail) ∈
      (create_order_detail st oid pid (.int q) false).st.order_details := by
  obtain ⟨o, ho⟩ := Option.isSome_iff_exists.mp ho
  unfold create_order_detail
  simp only [QtyInput.toInt, ho, hi]
  rw [if_neg (by omega)]
  refine ⟨rfl, ?_, ?_⟩
  · show (st.inventories.map (adjInv inv.inventory_id (-q))).find? (byPid pid) = _
    rw [find?_byPid_adjInv_self pid (-q) st.inventories inv hi, Int.sub_eq_add_neg]
  · show (⟨oid, pid, q⟩ : OrderDetail) ∈ st.order_details ++ [⟨oid, pid, q⟩]
    simp

/-- Witness for C2 at a concrete input: creating a line of 4 for `(O1, P1)` in
`st0` succeeds, leaves inventory 10 − 4 = 6, and the line exists. -/
theorem C2_witness :
    (create_order_detail st0 "O1" "P1" (.int 4) false).ok = true ∧
    (create_order_detail st0 "O1" "P1" (.int 4) false).st.inventories.find? (byPid "P1") =
      some { inv0 with quantity := inv0.quantity - 4 } ∧
    (⟨"O1", "P1", 4⟩ : OrderDetail) ∈
      (create_order_detail st0 "O1" "P1" (.int 4) false).st.order_details :=
  C2_create_success st0 "O1" "P1" 4 inv0 (by decide) (by decide) (by decide) (by decide)

theorem update_order_detail_failed_state_eq (st : MongoState) (oid pid : String)
    (qin : QtyInput) (iwf : Bool) :
    (update_order_detail st oid pid qin iwf false).ok = false →
      (update_order_detail st oid pid qin iwf false).st = st := by
  unfold update_order_detail
  dsimp only
  repeat' split
  all_goals intro h
  all_goals first | rfl | contradiction

/-- C3 counterexample: in `stLine` (inventory 6, line `(O1, P1)` of 4), an
update to quantity 7 whose line write fails after the inventory delta was
applied returns failure, yet the inventory state is not what it was before
the call — refuting the claim that every rejected update leaves the Inventory
state exactly as it was. -/
theorem C3_counterexample :
    (update_order_detail stLine "O1" "P1" (.int 7) false true).ok = false ∧
    (update_order_detail stLine "O1" "P1" (.int 7) false true).st.inventories ≠
      stLine.inventories := by decide

/-- C3 amended: every rejected order-line create (any error, the persist
failure included, via compensation) leaves the state exactly as before the
call, and so does every update rejected before or at the inventory write
(validation, missing line, missing inventory, insufficiency, or a failed
inventory write); in particular a create against insufficient inventory fails
with the insufficiency message and mutates nothing.  An update whose
line-quantity write fails after the inventory delta was applied, however,
returns failure with the inventory delta left applied. -/
theorem C3_amended_failed_calls_leave_state (st : MongoState) (oid pid : String)
    (qin : QtyInput) (sf iwf : Bool) (q : Int) (inv : Inventory) :
    ((create_order_detail st oid pid qin sf).ok = false →
      (create_order_detail st oid pid qin sf).st = st) ∧
    ((update_order_detail st oid pid qin iwf false).ok = false →
      (update_order_detail st oid pid qin iwf false).st = st) ∧
    ((st.orders.find? (byOid oid)).isSome →
      st.inventories.find? (byPid pid) = some inv →
      inv.quantity < q →
      (create_order_detail st oid pid (.int q) sf).ok = false ∧
      (create_order_detail st oid pid (.int q) sf).st = st ∧
      (create_order_detail st oid pid (.int q) sf).msg =
        "Not enough inventory or product does not exist.") := by
  refine ⟨create_order_detail_failed_state_eq st oid pid qin sf,
    update_order_detail_failed_state_eq st oid pid qin iwf, ?_⟩
  intro ho hi hlt
  obtain ⟨o, ho⟩ := Option.isSome_iff_exists.mp ho
  unfold create_order_detail
  simp only [QtyInput.toInt, ho, hi]
  rw [if_pos hlt]
  exact ⟨rfl, rfl, rfl⟩

/-- Witness for C3 amended at a concrete input: in `st0` (inventory 10),
requesting 20 fails with the insufficiency message and leaves the state
untouched, and the two failed-call clauses hold for the same inputs. -/
theorem C3_witness :
    ((create_order_detail st0 "O1" "P1" (.int 20) false).ok = false →
      (create_order_detail st0 "O1" "P1" (.int 20) false).st = st0) ∧
    ((update_order_detail st0 "O1" "P1" (.int 20) false false).ok = false →
      (update_order_detail st0 "O1" "P1" (.int 20) false false).st = st0) ∧
    (create_order_detail st0 "O1" "P1" (.int 20) false).ok = false ∧
    (create_order_detail st0 "O1" "P1" (.int 20) false).st = st0 ∧
    (create_order_detail st0 "O1" "P1" (.int 20) false).msg =
      "Not enough inventory or product does not exist." :=
  ⟨(C3_amended_failed_calls_leave_state st0 "O1" "P1" (.int 20) false false 20 inv0).1,
   (C3_amended_failed_calls_leave_state st0 "O1" "P1" (.int 20) false false 20 inv0).2.1,
   (C3_amended_failed_calls_leave_state st0 "O1" "P1" (.int 20) false false 20 inv0).2.2
     (by decide) (by decide) (by decide)⟩

/-- C4 counterexample: in `stDup` a line `(O1, P1)` of quantity 3 already
exists.  `create(O1, P1, 4)` succeeds (inventory 10 → 6) and appends a second
line, but the subsequent `delete(O1, P1)` finds the *older* line first and
credits its quantity 3, leaving inventory 9 ≠ 10 — the round trip does not
restore the pre-create value. -/
theorem C4_counterexample :
    (create_order_detail stDup "O1" "P1" (.int 4) false).ok = true ∧
    (delete_order_detail (create_order_detail stDup "O1" "P1" (.int 4) false).st
        "O1" "P1" false).ok = true ∧
    (delete_order_detail (create_order_detail stDup "O1" "P1" (.int 4) false).st
        "O1" "P1" false).st.inventories.find? (byPid "P1") ≠
      stDup.inventories.find? (byPid "P1") := by decide

/-- C4 amended: provided no line for `(order, product)` exists before the call
(the data model's at-most-one-line-per-pair assumption), a successful
`create(order, product, q)` followed by `delete(order, product)` restores the
entire state — in particular the inventory quantity — to exactly its value
before the create: the delete finds the created line and credits back the
amount debited. -/
theorem C4_amended_create_delete_round_trip (st : MongoState) (oid pid : String)
    (q : Int) (inv : Inventory)
    (_hq : 0 < q)
    (ho : (st.orders.find? (byOid oid)).isSome)
    (hi : st.inventories.find? (byPid pid) = some inv)
    (hge : q ≤ inv.quantity)
    (hnoline : st.order_details.find? (lineMatches oid pid) = none) :
    (create_order_detail st oid pid (.int q) false).ok = true ∧
    (delete_order_detail (create_order_detail st oid pid (.int q) false).st
        oid pid false).ok = true ∧
    (delete_order_detail (create_order_detail st oid pid (.int q) false).st
        oid pid false).st = st := by
  obtain ⟨o, ho⟩ := Option.isSome_iff_exists.mp ho
  have hline : lineMatches oid pid ⟨oid, pid, q⟩ = true := by simp [lineMatches]
  have hcreate : create_order_detail st oid pid (.int q) false =
      ⟨⟨st.retailers, st.orders, st.inventories.map (adjInv inv.inventory_id (-q)),
        st.order_details ++ [⟨oid, pid, q⟩]⟩, true, "Order detail added successfully."⟩ := by
    unfold create_order_detail
    simp only [QtyInput.toInt, ho, hi]
    rw [if_neg (by omega)]
    rfl
  rw [hcreate]
  refine ⟨rfl, ?_⟩
  unfold delete_order_detail
  have hfind := find?_append_of_none (lineMatches oid pid) st.order_details
    ⟨oid, pid, q⟩ hnoline hline
  have hfindinv := find?_byPid_adjInv_self pid (-q) st.inventories inv hi
  simp only [hfind, hfindinv, mapInv]
  refine ⟨rfl, ?_⟩
  show (⟨st.retailers, st.orders,
      (st.inventories.map (adjInv inv.inventory_id (-q))).map (adjInv inv.inventory_id q),
      removeFirstLine oid pid (st.order_details ++ [⟨oid, pid, q⟩])⟩ : MongoState) = st
  rw [map_adjInv_cancel,
    removeFirstLine_append_of_none oid pid st.order_details ⟨oid, pid, q⟩ hnoline hline]

/-- Witness for C4 amended: in `st0` (no lines, inventory 10), create 4 then
delete restores the state exactly. -/
theorem C4_witness :
    (create_order_detail st0 "O1" "P1" (.int 4) false).ok = true ∧
    (delete_order_detail (create_order_detail st0 "O1" "P1" (.int 4) false).st
        "O1" "P1" false).ok = true ∧
    (delete_order_detail (create_order_detail st0 "O1" "P1" (.int 4) false).st
        "O1" "P1" false).st = st0 :=
  C4_amended_create_delete_round_trip st0 "O1" "P1" 4 inv0 (by decide) (by decide)
    (by decide) (by decide) (by decide)

theorem map_adjInv_nonneg (l : List Inventory) (inv : Inventory) (d : Int)
    (hwf : (l.map Inventory.inventory_id).Nodup)
    (hmem : inv ∈ l)
    (hinv : ∀ x ∈ l, 0 ≤ x.quantity)
    (hd : 0 ≤ inv.quantity + d) :
    ∀ x ∈ l.map (adjInv inv.inventory_id d), 0 ≤ x.quantity := by
  intro x hx
  obtain ⟨y, hy, rfl⟩ := List.mem_map.mp hx
  unfold adjInv
  split
  · next h =>
    have hy_eq : y = inv :=
      List.inj_on_of_nodup_map hwf hy hmem (beq_iff_eq.mp h)
    subst hy_eq
    simpa using hd
  · exact hinv y hy

theorem create_preserves_inv_nonneg (st : MongoState) (oid pid : String)
    (qin : QtyInput) (sf : Bool)
    (hwf : (st.inventories.map Inventory.inventory_id).Nodup)
    (hinv : ∀ x ∈ st.inventories, 0 ≤ x.quantity) :
    ∀ x ∈ (create_order_detail st oid pid qin sf).st.inventories, 0 ≤ x.quantity := by
  unfold create_order_detail
  dsimp only
  split
  · exact hinv
  · next q _hq =>
    split
    · exact hinv
    · next o _hoeq =>
      split
      · exact hinv
      · next inv hfind =>
        split
        · exact hinv
        · next hnlt =>
          split
          · next _hsf =>
            show ∀ x ∈ (st.inventories.map (adjInv inv.inventory_id (-q))).map
                (adjInv inv.inventory_id q), 0 ≤ x.quantity
            rw [map_adjInv_cancel]
            exact hinv
          · next _hsf =>
            exact map_adjInv_nonneg st.inventories inv (-q) hwf
              (List.mem_of_find?_eq_some hfind) hinv (by omega)

theorem update_preserves_inv_nonneg (st : MongoState) (oid pid : String)
    (qin : QtyInput) (iwf lwf : Bool)
    (hwf : (st.inventories.map Inventory.inventory_id).Nodup)
    (hinv : ∀ x ∈ st.inventories, 0 ≤ x.quantity) :
    ∀ x ∈ (update_order_detail st oid pid qin iwf lwf).st.inventories, 0 ≤ x.quantity := by
  unfold update_order_detail
  dsimp only
  split
  · exact hinv
  · next q _hq =>
    split
    · exact hinv
    · next od _hodeq =>
      split
      · exact hinv
      · next inv hfind =>
        split
        · exact hinv
        · next hns =>
          split
          · exact hinv
          · next _hiwf =>
            have h0 := hinv inv (List.mem_of_find?_eq_some hfind)
            have key : ∀ x ∈ st.inventories.map
                (adjInv inv.inventory_id (-(q - od.quantity))), 0 ≤ x.quantity :=
              map_adjInv_nonneg st.inventories inv (-(q - od.quantity)) hwf
                (List.mem_of_find?_eq_some hfind) hinv (by omega)
            split
            · exact key
            · exact key

theorem delete_preserves_inv_nonneg (st : MongoState) (oid pid : String) (df : Bool)
    (hinv : ∀ x ∈ st.inventories, 0 ≤ x.quantity)
    (hline : ∀ od ∈ st.order_details, 0 ≤ od.quantity)
    (hwf : (st.inventories.map Inventory.inventory_id).Nodup) :
    ∀ x ∈ (delete_order_detail st oid pid df).st.inventories, 0 ≤ x.quantity := by
  unfold delete_order_detail
  dsimp only
  split
  · exact hinv
  · next od hodeq =>
    split
    · exact hinv
    · next inv hfind =>
      have h0 := hinv inv (List.mem_of_find?_eq_some hfind)
      have h1 := hline od (List.mem_of_find?_eq_some hodeq)
      have key : ∀ x ∈ st.inventories.map
          (adjInv inv.inventory_id od.quantity), 0 ≤ x.quantity :=
        map_adjInv_nonneg st.inventories inv od.quantity hwf
          (List.mem_of_find?_eq_some hfind) hinv (by omega)
      split
      · exact key
      · exact key

/-- C5 counterexample: starting from `st0`, whose only inventory quantity is 10
(non-negative), the administrative quantity set `update_inventory_quantity`
accepts −3, succeeds, and stores a negative quantity — refuting the claim that
every mutating operation preserves quantity ≥ 0. -/
theorem C5_counterexample :
    (∀ x ∈ st0.inventories, 0 ≤ x.quantity) ∧
    (update_inventory_quantity st0 "I1" (-3)).ok = true ∧
    (update_inventory_quantity st0 "I1" (-3)).st.inventories.find? (byIid "I1") =
      some ⟨"I1", "P1", -3, "W"⟩ := by decide

/-- C5 amended: starting from any state whose inventory and order-line
quantities are all non-negative (with distinct inventory primary keys), the
three order-line operations — create, update, delete, under any write-failure
pattern — preserve non-negativity of every stored inventory quantity.  The
inventory-creation and administrative quantity-set operations, however, perform
no validation and accept negative quantities. -/
theorem C5_amended_orderline_ops_preserve_nonneg (st : MongoState)
    (oid pid : String) (qin : QtyInput) (sf iwf lwf df : Bool)
    (hwf : (st.inventories.map Inventory.inventory_id).Nodup)
    (hinv : ∀ x ∈ st.inventories, 0 ≤ x.quantity)
    (hline : ∀ od ∈ st.order_details, 0 ≤ od.quantity) :
    (∀ x ∈ (create_order_detail st oid pid qin sf).st.inventories, 0 ≤ x.quantity) ∧
    (∀ x ∈ (update_order_detail st oid pid qin iwf lwf).st.inventories, 0 ≤ x.quantity) ∧
    (∀ x ∈ (delete_order_detail st oid pid df).st.inventories, 0 ≤ x.quantity) :=
  ⟨create_preserves_inv_nonneg st oid pid qin sf hwf hinv,
   update_preserves_inv_nonneg st oid pid qin iwf lwf hwf hinv,
   delete_preserves_inv_nonneg st oid pid df hinv hline hwf⟩

/-- Witness for C5 amended at `stLine` (inventory 6 ≥ 0, line quantity 4 ≥ 0):
a create of 2, an update to 2, and a delete all leave every inventory quantity
non-negative. -/
theorem C5_witness :
    (∀ x ∈ (create_order_detail stLine "O1" "P1" (.int 2) false).st.inventories,
      0 ≤ x.quantity) ∧
    (∀ x ∈ (update_order_detail stLine "O1" "P1" (.int 2) false false).st.inventories,
      0 ≤ x.quantity) ∧
    (∀ x ∈ (delete_order_detail stLine "O1" "P1" false).st.inventories,
      0 ≤ x.quantity) :=
  C5_amended_orderline_ops_preserve_nonneg stLine "O1" "P1" (.int 2) false false false
    false (by decide) (by decide) (by decide)

/-- C6 counterexample: a create with the negative quantity −5 is not rejected:
in `st0` it succeeds, credits the inventory (10 → 15), and stores a line of
quantity −5 — refuting the claim that negative quantities are rejected with a
validation error before any store is touched. -/
theorem C6_counterexample :
    (create_order_detail st0 "O1" "P1" (.int (-5)) false).ok = true ∧
    (create_order_detail st0 "O1" "P1" (.int (-5)) false).st ≠ st0 := by decide

/-- C6 amended: only non-integer quantity arguments are rejected by validation:
for every order-line create and update whose quantity argument does not convert
to an integer, the call fails with the validation message before any store is
touched (the returned state is exactly the input state).  Negative and zero
integer quantities pass validation. -/
theorem C6_amended_nonint_rejected_pre_mutation (st : MongoState) (oid pid : String)
    (sf iwf lwf : Bool) :
    create_order_detail st oid pid .nonInt sf =
      ⟨st, false, "Quantity must be an integer."⟩ ∧
    update_order_detail st oid pid .nonInt iwf lwf =
      ⟨st, false, "Quantity must be an integer."⟩ :=
  ⟨rfl, rfl⟩

theorem map_adjInv_zero (iid : String) (l : List Inventory) :
    l.map (adjInv iid 0) = l := by
  have h : adjInv iid 0 = fun x => x := funext fun x => adjInv_zero iid x
  rw [h, List.map_id']

/-- C7: on an existing line and existing inventory record, an update to
`newQuantity` with `delta = newQuantity − currentQuantity` behaves as follows
(with both store writes succeeding): if `delta > 0` exceeds the available
inventory the call fails with the insufficiency error and nothing mutates;
otherwise it succeeds, the inventory is debited by `delta` (credited when
negative), and the line's quantity becomes `newQuantity`; a zero delta leaves
the inventory collection unchanged and still succeeds. -/
theorem C7_update_delta_semantics (st : MongoState) (oid pid : String) (newQ : Int)
    (od : OrderDetail) (inv : Inventory)
    (hod : st.order_details.find? (lineMatches oid pid) = some od)
    (hi : st.inventories.find? (byPid pid) = some inv) :
    (newQ - od.quantity > 0 ∧ newQ - od.quantity > inv.quantity →
      update_order_detail st oid pid (.int newQ) false false =
        ⟨st, false, "Insufficient inventory to fulfill the updated quantity."⟩) ∧
    (¬(newQ - od.quantity > 0 ∧ newQ - od.quantity > inv.quantity) →
      (update_order_detail st oid pid (.int newQ) false false).ok = true ∧
      (update_order_detail st oid pid (.int newQ) false false).st.inventories.find?
          (byPid pid) = some { inv with quantity := inv.quantity - (newQ - od.quantity) } ∧
      (update_order_detail st oid pid (.int newQ) false false).st.order_details.find?
          (lineMatches oid pid) = some { od with quantity := newQ }) ∧
    (newQ = od.quantity →
      (update_order_detail st oid pid (.int newQ) false false).ok = true ∧
      (update_order_detail st oid pid (.int newQ) false false).st.inventories =
        st.inventories) := by
  unfold update_order_detail
  simp only [QtyInput.toInt, hod, hi]
  refine ⟨fun h => ?_, fun h => ?_, fun h => ?_⟩
  · rw [if_pos h]
  · rw [if_neg h]
    refine ⟨rfl, ?_, ?_⟩
    · show (st.inventories.map (adjInv inv.inventory_id (-(newQ - od.quantity)))).find?
          (byPid pid) = _
      rw [find?_byPid_adjInv_self pid (-(newQ - od.quantity)) st.inventories inv hi]
      have harith : inv.quantity + -(newQ - od.quantity) =
          inv.quantity - (newQ - od.quantity) := by omega
      rw [harith]
    · show (setFirstLineQty oid pid newQ
          (mapInv st (adjInv inv.inventory_id (-(newQ - od.quantity)))).order_details).find?
          (lineMatches oid pid) = _
      exact setFirstLineQty_find? oid pid newQ st.order_details od hod
  · rw [if_neg (by omega)]
    refine ⟨rfl, ?_⟩
    show st.inventories.map (adjInv inv.inventory_id (-(newQ - od.quantity))) =
      st.inventories
    have h0 : -(newQ - od.quantity) = 0 := by omega
    rw [h0, map_adjInv_zero]

/-- Witness for C7 at `stLine` (line quantity 4, inventory 6) with
`newQuantity = 7`, i.e. delta = 3 ≤ 6. -/
theorem C7_witness :
    (7 - (4:Int) > 0 ∧ 7 - (4:Int) > 6 →
      update_order_detail stLine "O1" "P1" (.int 7) false false =
        ⟨stLine, false, "Insufficient inventory to fulfill the updated quantity."⟩) ∧
    (¬(7 - (4:Int) > 0 ∧ 7 - (4:Int) > 6) →
      (update_order_detail stLine "O1" "P1" (.int 7) false false).ok = true ∧
      (update_order_detail stLine "O1" "P1" (.int 7) false false).st.inventories.find?
          (byPid "P1") = some ⟨"I1", "P1", 6 - (7 - 4), "W"⟩ ∧
      (update_order_detail stLine "O1" "P1" (.int 7) false false).st.order_details.find?
          (lineMatches "O1" "P1") = some ⟨"O1", "P1", 7⟩) ∧
    ((7:Int) = 4 →
      (update_order_detail stLine "O1" "P1" (.int 7) false false).ok = true ∧
      (update_order_detail stLine "O1" "P1" (.int 7) false false).st.inventories =
        stLine.inventories) :=
  C7_update_delta_semantics stLine "O1" "P1" 7 ⟨"O1", "P1", 4⟩ ⟨"I1", "P1", 6, "W"⟩
    (by decide) (by decide)

theorem find?_map_replace {α : Type} (p : α → Bool) (o : α) (hpo : p o = true)
    (l : List α) (hany : l.any p = true) :
    (l.map (fun x => if p x then o else x)).find? p = some o := by
  induction l with
  | nil => simp at hany
  | cons hd tl ih =>
    by_cases hp : p hd
    · simp [List.map_cons, hp, List.find?_cons_of_pos, hpo]
    · rw [List.map_cons, if_neg hp, List.find?_cons_of_neg _ hp]
      rw [List.any_cons] at hany
      apply ih
      simpa [hp] using hany

theorem find?_saveOrder (l : List Order) (o : Order) :
    (saveOrder l o).find? (byOid o.order_id) = some o := by
  have hpo : byOid o.order_id o = true := by simp [byOid]
  unfold saveOrder
  split
  · next hany => exact find?_map_replace (byOid o.order_id) o hpo l hany
  · next hany =>
    refine find?_append_of_none (byOid o.order_id) l o ?_ hpo
    rw [List.find?_eq_none]
    intro x hx hpx
    exact hany (List.any_eq_true.mpr ⟨x, hx, hpx⟩)

/-- C8: `create_order` fails with the retailer-not-found error and persists no
order when the retailer is missing, and otherwise stores an order carrying the
retailer reference and the creation timestamp; `update_order` can reassign the
retailer reference to an existing retailer, but fails with the
retailer-not-found error and leaves the whole state unchanged when the
replacement retailer does not exist. -/
theorem C8_order_retailer_reference (st : MongoState)
    (oid rid1 rid2 newRid : String) (now : Nat) (ret : Retailer) (o : Order)
    (h1 : st.retailers.find? (byRid rid1) = none)
    (h2 : st.retailers.find? (byRid rid2) = some ret)
    (ho : st.orders.find? (byOid oid) = some o)
    (hnew : newRid ≠ "")
    (hnewnone : st.retailers.find? (byRid newRid) = none)
    (hr2 : rid2 ≠ "") :
    create_order st oid rid1 now = ⟨st, false, "Retailer does not exist."⟩ ∧
    ((create_order st oid rid2 now).ok = true ∧
      (create_order st oid rid2 now).st.orders.find? (byOid oid) =
        some ⟨oid, rid2, now⟩) ∧
    update_order st oid (some newRid) =
      ⟨st, false, "New retailer not found. Order's retailer not updated."⟩ ∧
    ((update_order st oid (some rid2)).ok = true ∧
      (update_order st oid (some rid2)).st.orders.find? (byOid oid) =
        some { o with retailer_id := ret.retailer_id }) := by
  have hoid : o.order_id = oid := by
    have := List.find?_some ho
    simpa [byOid] using this
  refine ⟨?_, ⟨?_, ?_⟩, ?_, ⟨?_, ?_⟩⟩
  · unfold create_order
    rw [h1]
  · unfold create_order
    rw [h2]
  · unfold create_order
    rw [h2]
    show (saveOrder st.orders ⟨oid, rid2, now⟩).find? (byOid oid) = _
    exact find?_saveOrder st.orders ⟨oid, rid2, now⟩
  · unfold update_order
    rw [ho]
    dsimp only
    rw [if_neg (by simpa using hnew), hnewnone]
  · unfold update_order
    rw [ho]
    dsimp only
    rw [if_neg (by simpa using hr2), h2]
  · unfold update_order
    rw [ho]
    dsimp only
    rw [if_neg (by simpa using hr2), h2]
    show (saveOrder st.orders { o with retailer_id := ret.retailer_id }).find?
        (byOid oid) = _
    rw [show oid = ({ o with retailer_id := ret.retailer_id } : Order).order_id from
      hoid.symm]
    exact find?_saveOrder st.orders { o with retailer_id := ret.retailer_id }

/-- Witness for C8 at `st0`: retailer `R9` is absent, `R1` present, order `O1`
present. -/
theorem C8_witness :
    create_order st0 "O1" "R9" 5 = ⟨st0, false, "Retailer does not exist."⟩ ∧
    ((create_order st0 "O1" "R1" 5).ok = true ∧
      (create_order st0 "O1" "R1" 5).st.orders.find? (byOid "O1") =
        some ⟨"O1", "R1", 5⟩) ∧
    update_order st0 "O1" (some "R9") =
      ⟨st0, false, "New retailer not found. Order's retailer not updated."⟩ ∧
    ((update_order st0 "O1" (some "R1")).ok = true ∧
      (update_order st0 "O1" (some "R1")).st.orders.find? (byOid "O1") =
        some ⟨"O1", "R1", 0⟩) := by
  exact C8_order_retailer_reference st0 "O1" "R9" "R1" "R9" 5 ⟨"R1", "Acme", "NY", "555"⟩
    ⟨"O1", "R1", 0⟩ (by decide) (by decide) (by decide) (by decide) (by decide) (by decide)

/-- C9 counterexample: the debit in `create_order_detail` is an
application-level check (`inventory_item.quantity < quantity` on a previously
fetched document) followed by a separate unconditional atomic
`update(dec__quantity=...)`.  Interleaving the micro-steps of two debits of 6
against quantity 10 lets both checks pass and both decrements commit: both
threads finish committed and the quantity is −2 < 0, refuting the claim that
the check-then-decrement is a single atomic step under which concurrent debits
never drive the quantity negative and only the fitting prefix succeeds. -/
theorem C9_counterexample :
    (runRace (initRace 10 6 6) interleavedSched).qty = -2 ∧
    (runRace (initRace 10 6 6) interleavedSched).a.pc = 2 ∧
    (runRace (initRace 10 6 6) interleavedSched).b.pc = 2 ∧
    (runRace (initRace 10 6 6) interleavedSched).qty < 0 := by decide

/-- C9 amended: the decrement itself is a single atomic storage operation, but
the sufficiency check is a separate application-level read, so atomicity holds
only without interleaving: when two debits run serially the quantity stays
non-negative and the first debit commits exactly when it fits, yet there is an
interleaved schedule of the same micro-steps that drives the quantity
negative. -/
theorem C9_amended_debit_check_not_atomic (q qa qb : Int)
    (hq : 0 ≤ q) (_hqa : 0 < qa) (_hqb : 0 < qb) :
    0 ≤ (runRace (initRace q qa qb) serialSched).qty ∧
    ((runRace (initRace q qa qb) serialSched).a.pc = 2 ↔ qa ≤ q) ∧
    (runRace (initRace 10 6 6) interleavedSched).qty < 0 := by
  refine ⟨?_, ?_, by decide⟩
  · by_cases h1 : q < qa
    · by_cases h2 : q < qb <;>
        simp [serialSched, runRace, stepRace, stepDebit, initRace, h1, h2] <;> omega
    · by_cases h2 : q - qa < qb <;>
        simp [serialSched, runRace, stepRace, stepDebit, initRace, h1, h2] <;> omega
  · by_cases h1 : q < qa
    · by_cases h2 : q < qb <;>
        simp [serialSched, runRace, stepRace, stepDebit, initRace, h1, h2] <;> omega
    · by_cases h2 : q - qa < qb <;>
        simp [serialSched, runRace, stepRace, stepDebit, initRace, h1, h2] <;> omega

/-- Witness for C9 amended at quantity 10 with two debits of 6: the serial run
ends non-negative with the first debit committed, and the interleaved run of
the same debits goes negative. -/
theorem C9_witness :
    0 ≤ (runRace (initRace 10 6 6) serialSched).qty ∧
    ((runRace (initRace 10 6 6) serialSched).a.pc = 2 ↔ (6:Int) ≤ 10) ∧
    (runRace (initRace 10 6 6) interleavedSched).qty < 0 :=
  C9_amended_debit_check_not_atomic 10 6 6 (by decide) (by decide) (by decide)

/-- C10 counterexample: product `P1` is already present in `redis0`, yet
`create_product` for `P1` naming the absent supplier `S9` fails with the
supplier-missing message rather than the already-exists outcome (the supplier
existence check runs first); the claim that creation for an existing
product_id fails with an already-exists outcome is therefore false as stated
(the state is still left unchanged). -/
theorem C10_counterexample :
    (create_product redis0 "P1" "n" "d" "9" "S9").ok = false ∧
    (create_product redis0 "P1" "n" "d" "9" "S9").msg =
      "Supplier does not exist. Add the supplier first." ∧
    (create_product redis0 "P1" "n" "d" "9" "S9").msg ≠ "Product already exists." ∧
    (create_product redis0 "P1" "n" "d" "9" "S9").st = redis0 := by decide

/-- C10 amended: creation never overwrites an existing catalog entry: for a
product_id already present, `create_product` always fails and leaves the store
(hence the stored attributes of the existing record) unchanged — with the
already-exists outcome when the named supplier exists, and with the
supplier-missing outcome otherwise; for a supplier_id already present,
`create_supplier` fails with the already-exists outcome and leaves the store
unchanged. -/
theorem C10_amended_create_never_overwrites (r : RedisState)
    (product_id name description price supplier_id sid2 : String)
    (sname slocation scontact : String)
    (hp : (r.products.find? (fun kv => kv.1 == product_id)).isSome)
    (hs : (r.suppliers.find? (fun kv => kv.1 == supplier_id)).isSome) :
    ((create_product r product_id name description price sid2).ok = false ∧
      (create_product r product_id name description price sid2).st = r) ∧
    (create_product r product_id name description price supplier_id).msg =
      "Product already exists." ∧
    ((create_supplier r supplier_id sname slocation scontact).ok = false ∧
      (create_supplier r supplier_id sname slocation scontact).st = r ∧
      (create_supplier r supplier_id sname slocation scontact).msg =
        "Supplier already exists.") := by
  refine ⟨?_, ?_, ?_⟩
  · by_cases h2 : (r.suppliers.find? (fun kv => kv.1 == sid2)).isSome
    · unfold create_product
      rw [if_neg (by simpa using h2), if_pos hp]
      exact ⟨rfl, rfl⟩
    · unfold create_product
      rw [if_pos (by simpa using h2)]
      exact ⟨rfl, rfl⟩
  · unfold create_product
    rw [if_neg (by simpa using hs), if_pos hp]
  · unfold create_supplier
    rw [if_pos hs]
    exact ⟨rfl, rfl, rfl⟩

/-- Witness for C10 amended at `redis0` (product `P1`, supplier `S1` present,
supplier `S9` absent). -/
theorem C10_witness :
    ((create_product redis0 "P1" "n" "d" "9" "S9").ok = false ∧
      (create_product redis0 "P1" "n" "d" "9" "S9").st = redis0) ∧
    (create_product redis0 "P1" "n" "d" "9" "S1").msg = "Product already exists." ∧
    ((create_supplier redis0 "S1" "n" "l" "c").ok = false ∧
      (create_supplier redis0 "S1" "n" "l" "c").st = redis0 ∧
      (create_supplier redis0 "S1" "n" "l" "c").msg = "Supplier already exists.") :=
  C10_amended_create_never_overwrites redis0 "P1" "n" "d" "9" "S1" "S9" "n" "l" "c"
    (by decide) (by decide)
